import Mathlib

/-!
Verification development for the user-account slice of the todo-app backend
(repository `golang_TLV`): registration, login, retrieval, update, deletion.

The embedding follows the three source files:
- `src/user/service.go` — the user service (`Register`, `Login`,
  `GetUserByID`, `UpdateUser`, `DeleteUser`);
- `src/internal/repository/postgres/user.go` — the gorm-backed repository
  (`Save`, `GetUser`, `GetAll`, `Update`, `Delete`);
- the gin handler file (`RegisterUserHandler`, `LoginHandler`,
  `GetUserHandler`, `UpdateUserHandler`, `DeleteUserHandler`).

The `domain`, `clients`, `util` and `tokenprovider` packages, and the gorm
database itself, are not part of the sources; those parts are modelled from
the spec (each such definition says so in its doc comment).  Effectful
collaborators (repository lookups, hashing, token generation, UUID and salt
generation, request binding) are passed to each function as explicit
arguments, so every definition is pure and executable.
-/

namespace TodoApp

/-- Modelled from the spec: `domain.User` — identity (unique ID, here a
natural number standing for the UUID), unique email, password hash, salt,
and role (small enumerated set, here a natural number).  The `domain`
package is not among the sources. -/
structure User where
  id : Nat
  email : String
  password : String
  salt : String
  role : Nat
deriving DecidableEq, Repr

/-- Modelled from the spec: the Go zero value `domain.User{}` returned by
`GetUserByID` on error. -/
def User.zero : User :=
  { id := 0, email := "", password := "", salt := "", role := 0 }

/-- Modelled from the spec: `domain.UserCreate` — the transient creation
payload, which gains a generated ID, computed salt, hashed password and
default role before persistence. -/
structure UserCreate where
  id : Nat
  email : String
  password : String
  salt : String
  role : Nat
deriving DecidableEq, Repr

/-- Modelled from the spec: `domain.UserLogin` — transient credential-check
payload (email + plaintext password). -/
structure UserLogin where
  email : String
  password : String
deriving DecidableEq, Repr

/-- Modelled from the spec: `domain.UserUpdate` — transient partial-update
payload, a mapping of field names to new values. -/
structure UserUpdate where
  fields : List (String × String)
deriving DecidableEq, Repr

/-- Modelled from the spec: `domain.User{}.TableName()` — the relational
table name used to tag storage errors with the entity. -/
def usersTable : String := "users"

/-- The error kinds of the slice (spec §7), as produced by the missing
`clients` and `domain` packages: `ErrInvalidRequest`, the typed
`ErrRecordNotFound` sentinel, `ErrDB`, `domain.ErrEmailExisted`,
`domain.ErrEmailOrPasswordInvalid`, `ErrInternal`, and the entity-tagged
storage wrappers `ErrCannotCreateEntity`, `ErrCannotGetEntity`,
`ErrCannotListEntity`, `ErrCannotUpdateEntity`, `ErrCannotDeleteEntity`.
Wrapping constructors retain the wrapped error as their argument. -/
inductive Err where
  | invalidRequest (msg : String)
  | recordNotFound
  | db (msg : String)
  | emailExisted
  | emailOrPasswordInvalid
  | internal (msg : String)
  | cannotCreateEntity (table : String) (e : Err)
  | cannotGetEntity (table : String) (e : Err)
  | cannotListEntity (table : String) (e : Err)
  | cannotUpdateEntity (table : String) (e : Err)
  | cannotDeleteEntity (table : String) (e : Err)
deriving DecidableEq, Repr

/-- The outward-facing code of an error: the classification a caller sees
(error kind plus, for storage wrappers, the entity and operation), without
the wrapped root error.  Spec §7: repository errors are wrapped with
entity/operation context at the service boundary. -/
def Err.topCode : Err → String
  | .invalidRequest _ => "invalid request"
  | .recordNotFound => "record not found"
  | .db _ => "db error"
  | .emailExisted => "email already existed"
  | .emailOrPasswordInvalid => "email or password invalid"
  | .internal _ => "something went wrong in the server"
  | .cannotCreateEntity t _ => "cannot create " ++ t
  | .cannotGetEntity t _ => "cannot get " ++ t
  | .cannotListEntity t _ => "cannot list " ++ t
  | .cannotUpdateEntity t _ => "cannot update " ++ t
  | .cannotDeleteEntity t _ => "cannot delete " ++ t

/-- The condition maps passed to `UserRepo.GetUser` in `service.go`:
`map[string]any{"email": data.Email}` and `map[string]any{"id": id}` are the
only two shapes used. -/
inductive Cond where
  | byEmail (email : String)
  | byId (id : Nat)
deriving DecidableEq, Repr

/-- Whether a stored user matches a lookup condition, as gorm's
`Where(conditions).First` matches all pairs of the condition map (modelled
from the spec: the gorm query itself is an external collaborator). -/
def condMatches (c : Cond) (u : User) : Bool :=
  match c with
  | .byEmail e => u.email == e
  | .byId i => u.id == i

/-- The outcome of gorm's `db.Where(conditions).First(&user)` inside
`userRepo.GetUser`: a row, `gorm.ErrRecordNotFound`, or another storage
failure (modelled from the spec: the database is external). -/
inductive GormFirst where
  | found (u : User)
  | notFound
  | failure (msg : String)
deriving DecidableEq, Repr

/-- `userRepo.GetUser` (`src/internal/repository/postgres/user.go`, lines
30–42): maps the gorm outcome to a user, translating
`gorm.ErrRecordNotFound` to the typed `clients.ErrRecordNotFound` and any
other failure to `clients.ErrDB`. -/
def repoGetUser (res : GormFirst) : Except Err User :=
  match res with
  | .found u => .ok u
  | .notFound => .error .recordNotFound
  | .failure m => .error (.db m)

/-- Modelled from the spec: the database state as a list of rows of the
`users` table, and gorm `First` as the first row matching the conditions. -/
def dbFirst (store : List User) (c : Cond) : GormFirst :=
  match store.find? (fun u => condMatches c u) with
  | some u => .found u
  | none => .notFound

/-- `userRepo.GetUser` run against a healthy database whose `users` table
holds `store`. -/
def storeGetUser (store : List User) (c : Cond) : Except Err User :=
  repoGetUser (dbFirst store c)

/-- The row inserted by `userRepo.Save` for a creation payload (modelled
from the spec: gorm `Create` persists the payload's fields as a new row). -/
def User.ofCreate (d : UserCreate) : User :=
  { id := d.id, email := d.email, password := d.password,
    salt := d.salt, role := d.role }

/-- `userRepo.Save` against the list-modelled store: appends the new row
(modelled from the spec: gorm `Create` on a healthy database). -/
def storeSave (store : List User) (d : UserCreate) : List User :=
  store ++ [User.ofCreate d]

/-- Modelled from the spec: `Role.String()`, the string rendering of the
role placed into the token payload by `Login`. -/
def Role.string (r : Nat) : String := toString r

/-- `clients.TokenPayload` built by `Login`: the user ID and the string
rendering of the role. -/
structure TokenPayload where
  uid : Nat
  urole : String
deriving DecidableEq, Repr

/-- The result of `userService.Register` (`src/user/service.go`, lines
41–69).  Besides the returned error, it records the final state of the
(mutated-in-place) creation payload and the payload passed to
`userRepo.Save`, `none` when `Save` was never called. -/
structure RegisterOut where
  err : Option Err
  data : UserCreate
  saved : Option UserCreate
deriving DecidableEq, Repr

/-- The creation payload as mutated by `Register` just before `Save`
(`src/user/service.go`, lines 57–62): the fresh UUID as ID, the hash of
`password ++ salt` as password, the generated salt, and role 1. -/
def registeredPayload (hash : String → String) (freshId : Nat)
    (salt : String) (data : UserCreate) : UserCreate :=
  { data with id := freshId,
              password := hash (data.password ++ salt),
              salt := salt,
              role := 1 }

/-- `userService.Register` (`src/user/service.go`, lines 41–69).
Collaborators are explicit arguments: `getUser` is the repository lookup,
`save` the repository save (returning its error, if any), `validate` the
`domain.UserCreate.Validate` check (returning the validation error message,
if any), `hash` the Hasher, `freshId` the value of `uuid.New()` and `salt`
the value of `util.GenSalt(50)` for this call.

The control flow follows the source: validation failure returns
`ErrInvalidRequest`; a lookup error other than the typed
`ErrRecordNotFound` is returned unchanged; a found user returns
`domain.ErrEmailExisted`; otherwise the payload receives the fresh ID, the
hash of `password ++ salt`, the salt and role 1, and is saved, a save error
being wrapped as `ErrCannotCreateEntity`. -/
def register (getUser : Cond → Except Err User)
    (save : UserCreate → Option Err)
    (validate : UserCreate → Option String)
    (hash : String → String)
    (freshId : Nat) (salt : String)
    (data : UserCreate) : RegisterOut :=
  match validate data with
  | some msg => { err := some (.invalidRequest msg), data := data, saved := none }
  | none =>
    match getUser (.byEmail data.email) with
    | .ok _ =>
        { err := some .emailExisted, data := data, saved := none }
    | .error e =>
        if e = .recordNotFound then
          let d : UserCreate := registeredPayload hash freshId salt data
          match save d with
          | some e2 =>
              { err := some (.cannotCreateEntity usersTable e2), data := d, saved := some d }
          | none =>
              { err := none, data := d, saved := some d }
        else
          { err := some e, data := data, saved := none }

/-- `userService.Login` (`src/user/service.go`, lines 71–94).  `generate`
is the token provider's `Generate` (token on success, error message on
failure) and `expiry` the service's configured expiry.  Any lookup error is
folded into `domain.ErrEmailOrPasswordInvalid`; a hash mismatch yields the
same error; on match the token payload (user ID and role string) is passed
to `generate` with the expiry, a generation failure being wrapped as
`ErrInternal`. -/
def login (getUser : Cond → Except Err User)
    (hash : String → String)
    (generate : TokenPayload → Nat → Except String String)
    (expiry : Nat)
    (data : UserLogin) : Except Err String :=
  match getUser (.byEmail data.email) with
  | .error _ => .error .emailOrPasswordInvalid
  | .ok user =>
    let passHashed := hash (data.password ++ user.salt)
    if user.password ≠ passHashed then
      .error .emailOrPasswordInvalid
    else
      match generate { uid := user.id, urole := Role.string user.role } expiry with
      | .error e => .error (.internal e)
      | .ok tok => .ok tok

/-- `userService.GetUserByID` (`src/user/service.go`, lines 105–111): the
repository lookup by ID, any error being wrapped as `ErrCannotGetEntity`
tagged with the user table name, the zero-value user being returned
alongside the error. -/
def getUserByID (getUser : Cond → Except Err User) (id : Nat) :
    User × Option Err :=
  match getUser (.byId id) with
  | .error e => (User.zero, some (.cannotGetEntity usersTable e))
  | .ok u => (u, none)

/-- The response of `GetUserHandler`: either a failure JSON with an HTTP
status and the error, or the success envelope with the user. -/
inductive GetUserResp where
  | failure (status : Nat) (e : Err)
  | success (status : Nat) (u : User)
deriving DecidableEq, Repr

/-- `userHandler.GetUserHandler` (gin handler file, lines 142–154): reads
the authenticated requester from the context (injected by the auth
middleware, here the explicit `requesterId`), calls the service
`GetUserByID` with the requester's own user ID, and maps an error to a 400
response and success to a 200 envelope.  The `pathId` argument is the `:id`
path parameter of the route; the handler body never reads it. -/
def getUserHandler (svcGetById : Nat → User × Option Err)
    (pathId : String) (requesterId : Nat) : GetUserResp :=
  let r := svcGetById requesterId
  match r.2 with
  | some e => .failure 400 e
  | none => .success 200 r.1

/-- The observable outcome of `UpdateUserHandler`: the HTTP status, the
store after the call, and whether the service `UpdateUser` was invoked. -/
structure UpdateOut where
  status : Nat
  store : List User
  calledUpdate : Bool
deriving DecidableEq, Repr

/-- `userHandler.UpdateUserHandler` (gin handler file, lines 169–198).
`parsedId` is the result of `uuid.Parse(c.Param("id"))` and `bound` the
result of binding the request body (both `none` on failure, modelled from
the spec: gin binding is external).  A parse or bind failure yields 400; a
requester whose ID differs from the path ID yields 401 before the service
is invoked; otherwise the service `UpdateUser` (`upd`, threading the store)
runs, its failure yielding 400 and success the 200 envelope. -/
def updateUserHandler
    (upd : Nat → UserUpdate → List User → List User × Option Err)
    (store : List User)
    (parsedId : Option Nat) (bound : Option UserUpdate)
    (requesterId : Nat) : UpdateOut :=
  match parsedId with
  | none => { status := 400, store := store, calledUpdate := false }
  | some id =>
    match bound with
    | none => { status := 400, store := store, calledUpdate := false }
    | some u =>
      if requesterId ≠ id then
        { status := 401, store := store, calledUpdate := false }
      else
        let r := upd id u store
        match r.2 with
        | some _ => { status := 400, store := r.1, calledUpdate := true }
        | none => { status := 200, store := r.1, calledUpdate := true }

/-! ## Theorems -/

/-- C2: two-run indistinguishability of `Login` failures — a login attempt
whose email lookup fails (with any error, including the typed NotFound) and
a login attempt whose recomputed hash does not match the stored hash both
return the identical generic `ErrEmailOrPasswordInvalid` error value, so a
caller cannot distinguish an unregistered email from a wrong password. -/
theorem login_failures_indistinguishable
    (getUser : Cond → Except Err User) (hash : String → String)
    (generate : TokenPayload → Nat → Except String String) (expiry : Nat)
    (d1 d2 : UserLogin) (e : Err) (u : User)
    (h1 : getUser (Cond.byEmail d1.email) = .error e)
    (h2 : getUser (Cond.byEmail d2.email) = .ok u)
    (h3 : u.password ≠ hash (d2.password ++ u.salt)) :
    login getUser hash generate expiry d1 = .error .emailOrPasswordInvalid
    ∧ login getUser hash generate expiry d2 = .error .emailOrPasswordInvalid
    ∧ login getUser hash generate expiry d1
        = login getUser hash generate expiry d2 := by
  refine ⟨?_, ?_, ?_⟩ <;> simp [login, h1, h2, h3]

/-- C2 witness: a concrete unregistered-email attempt and a concrete
wrong-password attempt yield the same error. -/
theorem login_failures_indistinguishable_witness :
    login (fun c => match c with
        | Cond.byEmail e =>
            if e = "b@x" then Except.ok (User.mk 1 "b@x" "HASH" "s" 1)
            else Except.error Err.recordNotFound
        | Cond.byId _ => Except.error Err.recordNotFound)
      (fun s => s) (fun _ _ => Except.ok "tok") 60 (UserLogin.mk "a@x" "pw")
      = Except.error Err.emailOrPasswordInvalid := by
  have h := login_failures_indistinguishable
    (fun c => match c with
        | Cond.byEmail e =>
            if e = "b@x" then Except.ok (User.mk 1 "b@x" "HASH" "s" 1)
            else Except.error Err.recordNotFound
        | Cond.byId _ => Except.error Err.recordNotFound)
    (fun s => s) (fun _ _ => Except.ok "tok") 60
    (UserLogin.mk "a@x" "pw") (UserLogin.mk "b@x" "wrong")
    Err.recordNotFound (User.mk 1 "b@x" "HASH" "s" 1)
    rfl rfl (by decide)
  exact h.1

/-- C4: on a successful credential match, `Login` calls the token
provider's `Generate` with exactly the stored user's ID and role (as its
string rendering) and the configured expiry; a generation failure is
returned as `ErrInternal`, and a generated token is returned with no
error. -/
theorem login_success_generates_token
    (getUser : Cond → Except Err User) (hash : String → String)
    (generate : TokenPayload → Nat → Except String String) (expiry : Nat)
    (d : UserLogin) (u : User)
    (h1 : getUser (Cond.byEmail d.email) = .ok u)
    (h2 : u.password = hash (d.password ++ u.salt)) :
    (∀ m, generate (TokenPayload.mk u.id (Role.string u.role)) expiry
            = .error m →
        login getUser hash generate expiry d = .error (.internal m))
    ∧ (∀ t, generate (TokenPayload.mk u.id (Role.string u.role)) expiry
            = .ok t →
        login getUser hash generate expiry d = .ok t) := by
  constructor
  · intro m hg
    simp [login, h1, h2, hg]
  · intro t hg
    simp [login, h1, h2, hg]

/-- C4 witness: a concrete matching login returns the generated token. -/
theorem login_success_generates_token_witness :
    login (fun _ => Except.ok (User.mk 7 "a@x" "pws" "s" 1))
      (fun s => s) (fun p n => Except.ok (p.urole ++ toString n)) 60
      (UserLogin.mk "a@x" "pw") = Except.ok "160" := by
  have h := login_success_generates_token
    (fun _ => Except.ok (User.mk 7 "a@x" "pws" "s" 1))
    (fun s => s) (fun p n => Except.ok (p.urole ++ toString n)) 60
    (UserLogin.mk "a@x" "pw") (User.mk 7 "a@x" "pws" "s" 1)
    rfl (by decide)
  exact h.2 "160" rfl

/-- C6: when the authenticated requester's ID differs from the
path-supplied target ID (with the path ID parsed and the body bound), the
update handler responds 401, never invokes the service `UpdateUser`, and
leaves the store unchanged. -/
theorem updateUserHandler_identity_mismatch
    (upd : Nat → UserUpdate → List User → List User × Option Err)
    (store : List User) (id : Nat) (u : UserUpdate) (requesterId : Nat)
    (h : requesterId ≠ id) :
    updateUserHandler upd store (some id) (some u) requesterId
      = UpdateOut.mk 401 store false := by
  simp [updateUserHandler, h]

/-- C6 witness: a concrete mismatched update request gets 401 with no
service call and an unchanged store. -/
theorem updateUserHandler_identity_mismatch_witness :
    updateUserHandler (fun _ _ s => (s, none)) [User.zero] (some 1)
        (some (UserUpdate.mk [])) 2
      = UpdateOut.mk 401 [User.zero] false :=
  updateUserHandler_identity_mismatch (fun _ _ s => (s, none)) [User.zero]
    1 (UserUpdate.mk []) 2 (by decide)

/-- C7: the get-single-user handler ignores the path ID parameter entirely
— any two path IDs give the same response — and its response is exactly
the dispatch of the service `GetUserByID` applied to the authenticated
requester's own user ID. -/
theorem getUserHandler_ignores_path
    (g : Cond → Except Err User) (p q : String) (r : Nat) :
    getUserHandler (getUserByID g) p r = getUserHandler (getUserByID g) q r
    ∧ getUserHandler (getUserByID g) p r
        = (match (getUserByID g r).2 with
           | some e => GetUserResp.failure 400 e
           | none => GetUserResp.success 200 (getUserByID g r).1) := by
  exact ⟨rfl, rfl⟩

/-- C8: every payload that reaches persistence in `Register` carries the
freshly generated UUID as its ID (any caller-supplied ID is overwritten)
and has its role unconditionally set to the default value 1. -/
theorem register_saved_payload_id_role
    (getUser : Cond → Except Err User) (save : UserCreate → Option Err)
    (validate : UserCreate → Option String) (hash : String → String)
    (freshId : Nat) (salt : String) (data : UserCreate) (d : UserCreate)
    (h : (register getUser save validate hash freshId salt data).saved
          = some d) :
    d.id = freshId ∧ d.role = 1 := by
  unfold register at h
  split at h
  · simp at h
  · split at h
    · simp at h
    · split at h
      · dsimp only at h
        split at h
        · simp only [Option.some.injEq] at h
          subst h
          exact ⟨rfl, rfl⟩
        · simp only [Option.some.injEq] at h
          subst h
          exact ⟨rfl, rfl⟩
      · simp at h

/-- C8 witness: a concrete registration with a caller-supplied ID 99 and
role 9 persists ID 5 and role 1. -/
theorem register_saved_payload_id_role_witness :
    (UserCreate.mk 5 "a@x" "pws" "s" 1).id = 5
    ∧ (UserCreate.mk 5 "a@x" "pws" "s" 1).role = 1 :=
  register_saved_payload_id_role
    (fun _ => Except.error Err.recordNotFound) (fun _ => none)
    (fun _ => none) (fun s => s) 5 "s" (UserCreate.mk 99 "a@x" "pw" "" 9)
    (UserCreate.mk 5 "a@x" "pws" "s" 1) rfl

/-- C10: `GetUserByID` wraps every repository error — the typed NotFound
included — into the generic cannot-get-entity error tagged with the user
table name, returning the zero-value user alongside it; the outward error
code is the same whatever the repository error was, so the
NotFound/other-failure distinction is not observable in it. -/
theorem getUserByID_wraps_errors
    (getUser : Cond → Except Err User) (id : Nat) (e : Err)
    (h : getUser (Cond.byId id) = .error e) :
    getUserByID getUser id
      = (User.zero, some (Err.cannotGetEntity usersTable e))
    ∧ ∀ e2 : Err, Err.topCode (Err.cannotGetEntity usersTable e)
        = Err.topCode (Err.cannotGetEntity usersTable e2) := by
  constructor
  · simp [getUserByID, h]
  · intro e2
    rfl

/-- C10 witness: a NotFound lookup becomes the generic cannot-get error
with the zero user, and shares its outward code with a DB-failure
wrapping. -/
theorem getUserByID_wraps_errors_witness :
    getUserByID (fun _ => Except.error Err.recordNotFound) 3
      = (User.zero, some (Err.cannotGetEntity usersTable Err.recordNotFound))
    ∧ Err.topCode (Err.cannotGetEntity usersTable Err.recordNotFound)
        = Err.topCode (Err.cannotGetEntity usersTable (Err.db "io")) := by
  have h := getUserByID_wraps_errors
    (fun _ => Except.error Err.recordNotFound) 3 Err.recordNotFound rfl
  exact ⟨h.1, h.2 (Err.db "io")⟩

/-- C5: during `Register`, a lookup error other than the typed NotFound is
returned to the caller unchanged with nothing saved, while the typed
NotFound lets registration proceed to `Save`; and the repository `GetUser`
returns the typed NotFound exactly when no row matches the conditions,
wrapping any other storage failure as a generic DB error. -/
theorem register_lookup_error_handling
    (getUser : Cond → Except Err User) (save : UserCreate → Option Err)
    (validate : UserCreate → Option String) (hash : String → String)
    (freshId : Nat) (salt : String) (data : UserCreate)
    (store : List User) (c : Cond) (m : String)
    (hv : validate data = none) :
    (∀ e : Err, getUser (Cond.byEmail data.email) = .error e →
        e ≠ .recordNotFound →
        register getUser save validate hash freshId salt data
          = RegisterOut.mk (some e) data none)
    ∧ (getUser (Cond.byEmail data.email) = .error .recordNotFound →
        (register getUser save validate hash freshId salt data).saved
          = some (registeredPayload hash freshId salt data))
    ∧ (storeGetUser store c = .error .recordNotFound ↔
        store.find? (fun u => condMatches c u) = none)
    ∧ repoGetUser (GormFirst.failure m) = .error (.db m) := by
  refine ⟨?_, ?_, ?_, rfl⟩
  · intro e hg hne
    simp [register, hv, hg, hne]
  · intro hg
    cases hsave : save (registeredPayload hash freshId salt data) with
    | none => simp [register, hv, hg, hsave]
    | some e2 => simp [register, hv, hg, hsave]
  · unfold storeGetUser dbFirst repoGetUser
    cases hfind : store.find? (fun u => condMatches c u) with
    | none => simp
    | some u => simp

/-- C5 witness: a concrete DB-failure lookup is propagated unchanged by
`Register`, and the list-backed repository distinguishes no-match from
failure as stated. -/
theorem register_lookup_error_handling_witness :
    register (fun _ => Except.error (Err.db "io")) (fun _ => none)
        (fun _ => none) (fun s => s) 5 "t" (UserCreate.mk 0 "a@x" "pw" "" 0)
      = RegisterOut.mk (some (Err.db "io")) (UserCreate.mk 0 "a@x" "pw" "" 0)
          none :=
  (register_lookup_error_handling (fun _ => Except.error (Err.db "io"))
    (fun _ => none) (fun _ => none) (fun s => s) 5 "t"
    (UserCreate.mk 0 "a@x" "pw" "" 0) [] (Cond.byId 0) "io" rfl).1
    (Err.db "io") rfl (by decide)

/-- C9: on each early error path of `Register` — validation failure,
propagated lookup error, or email-already-exists — the creation payload is
returned unmodified and `Save` is never called. -/
theorem register_early_errors_no_side_effects
    (getUser : Cond → Except Err User) (save : UserCreate → Option Err)
    (validate : UserCreate → Option String) (hash : String → String)
    (freshId : Nat) (salt : String) (data : UserCreate) :
    (∀ m, validate data = some m →
        register getUser save validate hash freshId salt data
          = RegisterOut.mk (some (Err.invalidRequest m)) data none)
    ∧ (∀ e, validate data = none →
        getUser (Cond.byEmail data.email) = .error e →
        e ≠ .recordNotFound →
        register getUser save validate hash freshId salt data
          = RegisterOut.mk (some e) data none)
    ∧ (∀ u, validate data = none →
        getUser (Cond.byEmail data.email) = .ok u →
        register getUser save validate hash freshId salt data
          = RegisterOut.mk (some Err.emailExisted) data none) := by
  refine ⟨?_, ?_, ?_⟩
  · intro m hm
    simp [register, hm]
  · intro e hv hg hne
    simp [register, hv, hg, hne]
  · intro u hv hg
    simp [register, hv, hg]

/-- C9 witness: a concrete duplicate-email registration leaves the payload
untouched and saves nothing. -/
theorem register_early_errors_no_side_effects_witness :
    register (fun _ => Except.ok (User.mk 1 "a@x" "h" "s" 1)) (fun _ => none)
        (fun _ => none) (fun s => s) 5 "t" (UserCreate.mk 0 "a@x" "pw" "" 0)
      = RegisterOut.mk (some Err.emailExisted) (UserCreate.mk 0 "a@x" "pw" "" 0)
          none :=
  (register_early_errors_no_side_effects
    (fun _ => Except.ok (User.mk 1 "a@x" "h" "s" 1)) (fun _ => none)
    (fun _ => none) (fun s => s) 5 "t"
    (UserCreate.mk 0 "a@x" "pw" "" 0)).2.2 (User.mk 1 "a@x" "h" "s" 1) rfl rfl

/-- C3: if `Register` (against the list-backed store) succeeds for a
payload with some email, then a second `Register` against the resulting
store, with any payload carrying the same email that passes input
validation, fails with the domain-specific email-already-exists error, the
second payload is untouched, and `Save` is never called — no second user
is persisted. -/
theorem register_duplicate_email_conflict
    (store : List User) (data1 data2 : UserCreate)
    (validate : UserCreate → Option String) (hash : String → String)
    (id1 id2 : Nat) (salt1 salt2 : String)
    (save2 : UserCreate → Option Err) (d : UserCreate)
    (h1 : (register (storeGetUser store) (fun _ => none) validate hash id1
            salt1 data1).err = none)
    (hs : (register (storeGetUser store) (fun _ => none) validate hash id1
            salt1 data1).saved = some d)
    (he : data2.email = data1.email)
    (hv2 : validate data2 = none) :
    register (storeGetUser (storeSave store d)) save2 validate hash id2
        salt2 data2
      = RegisterOut.mk (some Err.emailExisted) data2 none := by
  cases hval : validate data1 with
  | some m =>
      simp [register, hval] at h1
  | none =>
  cases hfind : store.find? (fun u => condMatches (Cond.byEmail data1.email) u) with
  | some u =>
      have hget : storeGetUser store (Cond.byEmail data1.email) = .ok u := by
        simp [storeGetUser, dbFirst, repoGetUser, hfind]
      simp [register, hval, hget] at h1
  | none =>
      have hget : storeGetUser store (Cond.byEmail data1.email)
          = .error .recordNotFound := by
        simp [storeGetUser, dbFirst, repoGetUser, hfind]
      have hd : d = registeredPayload hash id1 salt1 data1 := by
        simp [register, hval, hget] at hs
        exact hs.symm
      have hde : d.email = data1.email := by
        rw [hd]
        rfl
      have hget2 : storeGetUser (storeSave store d) (Cond.byEmail data2.email)
          = .ok (User.ofCreate d) := by
        unfold storeGetUser dbFirst storeSave
        rw [he, List.find?_append, hfind]
        simp [List.find?, condMatches, User.ofCreate, hde, repoGetUser]
      simp [register, hv2, hget2]

/-- C3 witness: registering a concrete fresh email and then registering a
second payload with the same email yields the email-already-exists error
with nothing saved. -/
theorem register_duplicate_email_conflict_witness :
    register
        (storeGetUser (storeSave [] (UserCreate.mk 1 "a@x" "#pws" "s" 1)))
        (fun _ => none) (fun _ => none) (fun s => String.append "#" s) 2 "t"
        (UserCreate.mk 7 "a@x" "q" "z" 9)
      = RegisterOut.mk (some Err.emailExisted) (UserCreate.mk 7 "a@x" "q" "z" 9)
          none :=
  register_duplicate_email_conflict [] (UserCreate.mk 0 "a@x" "pw" "" 0)
    (UserCreate.mk 7 "a@x" "q" "z" 9) (fun _ => none)
    (fun s => String.append "#" s) 1 2 "s" "t" (fun _ => none)
    (UserCreate.mk 1 "a@x" "#pws" "s" 1) rfl rfl rfl rfl

/-- C1: round-trip — against the list-backed store, `Register` on a
validated payload with a fresh email and a fresh generated UUID succeeds,
persists exactly the registered payload, and a subsequent `GetUserByID` on
that ID returns its row with the same email, role set to the default 1,
the generated salt stored, and the password field equal to
`hash (password ++ salt)` and different from the plaintext password
(provided the hash of the salted password differs from the plaintext, as
for a one-way hash). -/
theorem register_getUserByID_roundtrip
    (store : List User) (data : UserCreate)
    (validate : UserCreate → Option String) (hash : String → String)
    (freshId : Nat) (salt : String)
    (hv : validate data = none)
    (hemail : store.find? (fun u => condMatches (Cond.byEmail data.email) u)
        = none)
    (hid : store.find? (fun u => condMatches (Cond.byId freshId) u) = none)
    (hhash : hash (data.password ++ salt) ≠ data.password) :
    (register (storeGetUser store) (fun _ => none) validate hash freshId
        salt data).err = none
    ∧ (register (storeGetUser store) (fun _ => none) validate hash freshId
        salt data).saved = some (registeredPayload hash freshId salt data)
    ∧ getUserByID
        (storeGetUser
          (storeSave store (registeredPayload hash freshId salt data)))
        (registeredPayload hash freshId salt data).id
        = (User.ofCreate (registeredPayload hash freshId salt data), none)
    ∧ (registeredPayload hash freshId salt data).email = data.email
    ∧ (registeredPayload hash freshId salt data).role = 1
    ∧ (registeredPayload hash freshId salt data).salt = salt
    ∧ (registeredPayload hash freshId salt data).password
        = hash (data.password ++ salt)
    ∧ (registeredPayload hash freshId salt data).password ≠ data.password := by
  have hget : storeGetUser store (Cond.byEmail data.email)
      = .error .recordNotFound := by
    simp [storeGetUser, dbFirst, repoGetUser, hemail]
  refine ⟨?_, ?_, ?_, rfl, rfl, rfl, rfl, hhash⟩
  · simp [register, hv, hget]
  · simp [register, hv, hget]
  · have hstep : (registeredPayload hash freshId salt data).id = freshId := rfl
    have hfind2 :
        (storeSave store (registeredPayload hash freshId salt data)).find?
          (fun u =>
            condMatches
              (Cond.byId (registeredPayload hash freshId salt data).id) u)
          = some (User.ofCreate (registeredPayload hash freshId salt data)) := by
      unfold storeSave
      simp only [hstep]
      rw [List.find?_append, hid]
      simp [List.find?, condMatches, User.ofCreate, registeredPayload]
    simp [getUserByID, storeGetUser, dbFirst, repoGetUser, hfind2]

/-- C1 witness: a concrete fresh registration round-trips through
`GetUserByID` with the stated email, role, salt and hashed password. -/
theorem register_getUserByID_roundtrip_witness :
    (register (storeGetUser []) (fun _ => none) (fun _ => none)
        (fun s => String.append "#" s) 1 "s"
        (UserCreate.mk 0 "a@x" "pw" "" 0)).err = none
    ∧ (register (storeGetUser []) (fun _ => none) (fun _ => none)
        (fun s => String.append "#" s) 1 "s"
        (UserCreate.mk 0 "a@x" "pw" "" 0)).saved
        = some (registeredPayload (fun s => String.append "#" s) 1 "s"
            (UserCreate.mk 0 "a@x" "pw" "" 0))
    ∧ getUserByID
        (storeGetUser
          (storeSave []
            (registeredPayload (fun s => String.append "#" s) 1 "s"
              (UserCreate.mk 0 "a@x" "pw" "" 0))))
        (registeredPayload (fun s => String.append "#" s) 1 "s"
          (UserCreate.mk 0 "a@x" "pw" "" 0)).id
        = (User.ofCreate
            (registeredPayload (fun s => String.append "#" s) 1 "s"
              (UserCreate.mk 0 "a@x" "pw" "" 0)), none)
    ∧ (registeredPayload (fun s => String.append "#" s) 1 "s"
        (UserCreate.mk 0 "a@x" "pw" "" 0)).email = "a@x"
    ∧ (registeredPayload (fun s => String.append "#" s) 1 "s"
        (UserCreate.mk 0 "a@x" "pw" "" 0)).role = 1
    ∧ (registeredPayload (fun s => String.append "#" s) 1 "s"
        (UserCreate.mk 0 "a@x" "pw" "" 0)).salt = "s"
    ∧ (registeredPayload (fun s => String.append "#" s) 1 "s"
        (UserCreate.mk 0 "a@x" "pw" "" 0)).password = "#pws"
    ∧ (registeredPayload (fun s => String.append "#" s) 1 "s"
        (UserCreate.mk 0 "a@x" "pw" "" 0)).password ≠ "pw" :=
  register_getUserByID_roundtrip [] (UserCreate.mk 0 "a@x" "pw" "" 0)
    (fun _ => none) (fun s => String.append "#" s) 1 "s" rfl rfl rfl
    (by decide)

end TodoApp
